import Mathlib

/-!
Shallow embedding of the catalog derivation and synchronization engine of
the inventory-manager frontend (`src/pages/Products.jsx`), together with
proofs about its stock classifier, query/filter pipeline, pagination
arithmetic and CRUD state transitions.

Conventions of the embedding:
* JavaScript values that may be absent (`undefined`/`null`) become `Option`.
* The semi-structured `alert_config` field becomes the sum type
  `AlertConfig`: an object carrying an optional `min_quantity`, a raw
  string whose JSON decoding either fails or yields an optional
  `min_quantity`, or an absent value.
* Network calls become explicit outcome parameters (`FetchResult`,
  `MutationResult`, `DeleteResult`): a constructor per distinguishable
  path through the source's `try`/`catch`/`response.ok` logic.
* React state becomes the record `ComponentState`; each handler is a
  state transformer, and the `useEffect` that recomputes the filtered
  list (and resets the page) is the explicit `applyFilterEffect`.
-/

namespace InventoryFrontend

/-- The derived stock-health classification (`getStockStatus` result). -/
inductive StockStatus
  | out
  | low
  | average
  | healthy
  deriving DecidableEq

/-- The `alert_config` field of a product. In the source it is either a
structured object (whose `min_quantity` subfield may be missing), a
serialized string (whose `JSON.parse` either throws — `raw none` — or
yields a value with an optional `min_quantity` subfield), or absent. -/
inductive AlertConfig
  | absent
  | structured (min_quantity : Option Int)
  | raw (decoded : Option (Option Int))
  deriving DecidableEq

/-- A catalog entry, with the fields `Products.jsx` reads. Optional string
fields model `undefined`-able properties of the JSON record. -/
structure Product where
  id : Nat
  product_index : Option String := none
  name : Option String := none
  buying_price : String := ""
  selling_price : String := ""
  quantity : Nat
  alert_config : AlertConfig := .absent
  description : Option String := none
  supplier_name : Option String := none
  category : Option String := none
  deriving DecidableEq

/-- The threshold extraction shared by `getStockStatus` and the low-stock
filter branch: decode `alert_config` when it is a string (`none` encodes
the decode throwing), then `alertConfig?.min_quantity ?? 5`. -/
def getThreshold : AlertConfig → Option Int
  | .absent => some 5
  | .structured none => some 5
  | .structured (some m) => some m
  | .raw none => none
  | .raw (some none) => some 5
  | .raw (some (some m)) => some m

/-- `getStockStatus` (lines 185-200): `out` on zero quantity before the
`try` block; inside it, `low`/`average`/`healthy` by threshold, with the
`catch` returning `healthy`. -/
def getStockStatus (p : Product) : StockStatus :=
  if p.quantity = 0 then .out
  else
    match getThreshold p.alert_config with
    | none => .healthy
    | some t =>
      if (p.quantity : Int) ≤ t then .low
      else if p.quantity < 50 then .average
      else .healthy

/-- The predicate of the `filters.stock === 'low'` branch (lines 72-82):
`quantity <= threshold && quantity > 0`, with the `catch` returning
`false`. -/
def lowStockPred (p : Product) : Bool :=
  match getThreshold p.alert_config with
  | none => false
  | some t => decide ((p.quantity : Int) ≤ t) && decide (0 < p.quantity)

/-- JavaScript `hay.includes(needle)`: substring containment. -/
def jsIncludes (hay needle : String) : Bool :=
  decide (needle.data <:+: hay.data)

/-- The search predicate (lines 62-67). Each disjunct first tests the
field for truthiness (present and non-empty) exactly as the source's
`product.field && ...` guards do; `product_index` is compared against the
raw search term, the other fields against its lowercasing. -/
def searchPred (searchTerm : String) (p : Product) : Bool :=
  let lowerTerm := searchTerm.toLower
  (match p.name with
   | some n => (n != "") && jsIncludes n.toLower lowerTerm
   | none => false)
  || (match p.product_index with
      | some ix => (ix != "") && jsIncludes ix searchTerm
      | none => false)
  || (match p.description with
      | some d => (d != "") && jsIncludes d.toLower lowerTerm
      | none => false)
  || (match p.supplier_name with
      | some s => (s != "") && jsIncludes s.toLower lowerTerm
      | none => false)

/-- The stock/category/supplier filter selections (`filters` state). -/
structure Filters where
  stock : String
  category : String
  supplier : String
  deriving DecidableEq

/-- Search stage (lines 60-68): applied only when `searchTerm` is truthy. -/
def searchStage (searchTerm : String) (result : List Product) : List Product :=
  if searchTerm != "" then result.filter (searchPred searchTerm) else result

/-- Stock-filter stage (lines 70-87): `if`/`else if` chain on the stock
selection; any other value (in particular `'all'`) passes everything. -/
def stockStage (stock : String) (result : List Product) : List Product :=
  if stock == "low" then result.filter lowStockPred
  else if stock == "out" then result.filter (fun p => p.quantity == 0)
  else if stock == "average" then
    result.filter (fun p => decide (0 < p.quantity) && decide (p.quantity < 50))
  else result

/-- Category stage (lines 90-92): exact match unless the selection is
falsy or `'all'`. -/
def categoryStage (category : String) (result : List Product) : List Product :=
  if (category != "") && (category != "all") then
    result.filter (fun p => p.category == some category)
  else result

/-- Supplier stage (lines 95-97): exact match unless the selection is
falsy or `'all'`. -/
def supplierStage (supplier : String) (result : List Product) : List Product :=
  if (supplier != "") && (supplier != "all") then
    result.filter (fun p => p.supplier_name == some supplier)
  else result

/-- The query/filter pipeline of the effect at lines 56-101: search, then
stock, then category, then supplier. -/
def applyFilters (searchTerm : String) (filters : Filters) (products : List Product) :
    List Product :=
  supplierStage filters.supplier
    (categoryStage filters.category
      (stockStage filters.stock
        (searchStage searchTerm products)))

/-- The fixed page size (`productsPerPage`, line 15). -/
def productsPerPage : Nat := 10

/-- `totalPages = Math.ceil(filteredProducts.length / productsPerPage)`
(line 107), rendered over naturals; `totalPages_ceil_noMin` below proves
this rendering equal to the mathematical ceiling of the rational
quotient. -/
def totalPages (xs : List Product) (pageSize : Nat) : Nat :=
  (xs.length + pageSize - 1) / pageSize

/-- `currentProducts = filteredProducts.slice(indexOfFirstProduct,
indexOfLastProduct)` (lines 104-106): the contiguous range starting at
`(page-1)*pageSize` of length at most `pageSize`. -/
def pageSlice (xs : List Product) (pageSize page : Nat) : List Product :=
  (xs.drop ((page - 1) * pageSize)).take pageSize

/-- The `newProduct` creation-form draft state. -/
structure Draft where
  product_index : String
  name : String
  buying_price : String
  selling_price : String
  quantity : String
  alert_min_quantity : Int
  description : String
  supplier_name : String
  category : String
  deriving DecidableEq

/-- The initial (and post-create reset) draft: empty strings and
`alert_config: \x7b min_quantity: 5 \x7d` (lines 25-35, 126-136). -/
def initialDraft : Draft :=
  { product_index := ""
    name := ""
    buying_price := ""
    selling_price := ""
    quantity := ""
    alert_min_quantity := 5
    description := ""
    supplier_name := ""
    category := "" }

/-- The component's state variables (lines 10-35) that the catalog engine
reads or writes. -/
structure ComponentState where
  products : List Product
  filteredProducts : List Product
  loading : Bool
  error : Option String
  currentPage : Nat
  searchTerm : String
  filters : Filters
  showCreateModal : Bool
  newProduct : Draft
  deriving DecidableEq

/-- The state at mount (the `useState` initializers). -/
def initialState : ComponentState :=
  { products := []
    filteredProducts := []
    loading := true
    error := none
    currentPage := 1
    searchTerm := ""
    filters := { stock := "all", category := "all", supplier := "all" }
    showCreateModal := false
    newProduct := initialDraft }

/-- The filter/search effect (lines 56-101): recompute `filteredProducts`
from the current catalog and criteria and reset `currentPage` to 1. It
runs whenever `products`, `searchTerm` or `filters` changes. -/
def applyFilterEffect (st : ComponentState) : ComponentState :=
  { st with
    filteredProducts := applyFilters st.searchTerm st.filters st.products
    currentPage := 1 }

/-- `paginate` (line 110): set `currentPage`, touching nothing else. -/
def paginate (st : ComponentState) (pageNumber : Nat) : ComponentState :=
  { st with currentPage := pageNumber }

/-- A search-term change followed by the re-run of the filter effect. -/
def setSearchTermOp (st : ComponentState) (s : String) : ComponentState :=
  applyFilterEffect { st with searchTerm := s }

/-- A filter-selection change followed by the re-run of the filter effect. -/
def setFiltersOp (st : ComponentState) (f : Filters) : ComponentState :=
  applyFilterEffect { st with filters := f }

/-- Outcome of the initial `fetch` + `response.json()` (lines 38-53):
either some step threw (network failure or malformed payload), or a body
was parsed, carrying the HTTP success flag and the `data` array. -/
inductive FetchResult
  | thrown (message : String)
  | got (status2xx : Bool) (data : List Product)

/-- `fetchProducts` (lines 38-53). Note that the source never reads
`response.ok` or the status code on this path — the `status2xx` flag is
deliberately ignored here because the code ignores it: a parsed body is
installed as the catalog whatever the status was. Only a thrown exception
reaches the `catch` that sets `error`. -/
def fetchProducts (st : ComponentState) (result : FetchResult) : ComponentState :=
  match result with
  | .thrown _ =>
    { st with
      error := some "Failed to load products. Please try again later."
      loading := false }
  | .got _ data =>
    { st with products := data, loading := false }

/-- Outcome of a create round-trip: `fetch`/`response.json()` threw, the
response was non-2xx (`!response.ok`), or a canonical record came back. -/
inductive MutationResult
  | netFail (message : String)
  | httpFail
  | success (data : Product)

/-- `handleCreateProduct` (lines 113-140): on failure only `error` is
set (the thrown `'Failed to create product'` for a non-OK response, the
exception's own message otherwise); on success the server record is
prepended, the modal closed and the draft reset. -/
def handleCreateProduct (st : ComponentState) (result : MutationResult) : ComponentState :=
  match result with
  | .netFail msg => { st with error := some msg }
  | .httpFail => { st with error := some "Failed to create product" }
  | .success created =>
    { st with
      products := created :: st.products
      showCreateModal := false
      newProduct := initialDraft }

/-- Outcome of a delete round-trip (no body is read on success). -/
inductive DeleteResult
  | netFail (message : String)
  | httpFail
  | success

/-- `handleDeleteProduct` (lines 163-177): an early return when the
confirmation dialog is declined; on a non-OK response or a thrown error
only `error` is set; on success every entry with the id is filtered out. -/
def handleDeleteProduct (st : ComponentState) (productId : Nat) (confirmed : Bool)
    (result : DeleteResult) : ComponentState :=
  if !confirmed then st
  else
    match result with
    | .netFail msg => { st with error := some msg }
    | .httpFail => { st with error := some "Failed to delete product" }
    | .success =>
      { st with products := st.products.filter (fun p => p.id != productId) }

/-- Pointwise form of the search stage. -/
def searchStagePred (searchTerm : String) (p : Product) : Bool :=
  if searchTerm != "" then searchPred searchTerm p else true

/-- Pointwise form of the stock stage. -/
def stockStagePred (stock : String) (p : Product) : Bool :=
  if stock == "low" then lowStockPred p
  else if stock == "out" then p.quantity == 0
  else if stock == "average" then decide (0 < p.quantity) && decide (p.quantity < 50)
  else true

/-- Pointwise form of the category stage. -/
def categoryStagePred (category : String) (p : Product) : Bool :=
  if (category != "") && (category != "all") then p.category == some category else true

/-- Pointwise form of the supplier stage. -/
def supplierStagePred (supplier : String) (p : Product) : Bool :=
  if (supplier != "") && (supplier != "all") then p.supplier_name == some supplier else true

/-- The whole pipeline as one predicate (associated the way the nested
`List.filter_filter` rewrites produce it). -/
def pipelinePred (searchTerm : String) (filters : Filters) (p : Product) : Bool :=
  supplierStagePred filters.supplier p && categoryStagePred filters.category p &&
    stockStagePred filters.stock p && searchStagePred searchTerm p

/-- A minimal concrete catalog entry for the concrete evaluations below. -/
def sampleProduct (i q : Nat) (cfg : AlertConfig) : Product :=
  { id := i, quantity := q, alert_config := cfg }

/-- A 21-entry catalog: three pages at the fixed page size of 10, the
last page holding exactly one entry (the one with `id = 20`). -/
def demoCatalog : List Product :=
  (List.range 21).map (fun i => sampleProduct i 60 .absent)

/-- The state reached by loading `demoCatalog` successfully, letting the
filter effect run with the default criteria, and navigating to page 3. -/
def demoState : ComponentState :=
  paginate (applyFilterEffect (fetchProducts initialState (.got true demoCatalog))) 3

/-! ## Stage lemmas for the filter pipeline -/

/-- The search stage is the filter by its pointwise predicate. -/
theorem searchStage_eq_filter (s : String) (xs : List Product) :
    searchStage s xs = xs.filter (searchStagePred s) := by
  unfold searchStage searchStagePred
  cases h : (s != "") <;> simp [h]

/-- The stock stage is the filter by its pointwise predicate. -/
theorem stockStage_eq_filter (stock : String) (xs : List Product) :
    stockStage stock xs = xs.filter (stockStagePred stock) := by
  unfold stockStage stockStagePred
  cases h1 : (stock == "low") <;> cases h2 : (stock == "out") <;>
    cases h3 : (stock == "average") <;> simp [h1, h2, h3]

/-- The category stage is the filter by its pointwise predicate. -/
theorem categoryStage_eq_filter (category : String) (xs : List Product) :
    categoryStage category xs = xs.filter (categoryStagePred category) := by
  unfold categoryStage categoryStagePred
  cases h : ((category != "") && (category != "all")) <;> simp [h]

/-- The supplier stage is the filter by its pointwise predicate. -/
theorem supplierStage_eq_filter (supplier : String) (xs : List Product) :
    supplierStage supplier xs = xs.filter (supplierStagePred supplier) := by
  unfold supplierStage supplierStagePred
  cases h : ((supplier != "") && (supplier != "all")) <;> simp [h]

/-- The whole pipeline is one `List.filter` by `pipelinePred`. -/
theorem applyFilters_eq_filter (s : String) (f : Filters) (xs : List Product) :
    applyFilters s f xs = xs.filter (pipelinePred s f) := by
  unfold applyFilters pipelinePred
  rw [searchStage_eq_filter, stockStage_eq_filter, categoryStage_eq_filter,
    supplierStage_eq_filter, List.filter_filter, List.filter_filter, List.filter_filter]

/-! ## Stock classifier -/

/-- Claim C1: for every product, whatever the shape or content of its
`alert_config` (structured mapping, malformed serialized text, or
absent), `getStockStatus` returns `out` if and only if `quantity = 0`;
a malformed `alert_config` never masks the out-of-stock result, because
the zero-quantity short-circuit precedes the `try` block. -/
theorem stockStatus_out_iff_quantity_zero (p : Product) :
    getStockStatus p = .out ↔ p.quantity = 0 := by
  unfold getStockStatus
  by_cases h0 : p.quantity = 0
  · simp [h0]
  · cases ht : getThreshold p.alert_config with
    | none => simp [h0]
    | some t => simp only [h0, if_false]; split_ifs <;> simp [h0]

/-- Claim C5: the `stock = 'low'` filter stage passes a product exactly
when `getStockStatus` classifies it `low`; in particular a zero-quantity
product never passes, and both share the `<=` threshold boundary and the
handling of malformed or absent `alert_config`. -/
theorem lowFilter_iff_classifier_low (p : Product) :
    lowStockPred p = true ↔ getStockStatus p = .low := by
  unfold lowStockPred getStockStatus
  cases ht : getThreshold p.alert_config with
  | none => by_cases h0 : p.quantity = 0 <;> simp [h0]
  | some t =>
    by_cases h0 : p.quantity = 0
    · simp [h0]
    · by_cases hle : (p.quantity : Int) ≤ t
      · simp [h0, hle, Nat.pos_of_ne_zero h0]
      · simp [hle]
        split_ifs <;> simp

/-- Claim C4 counterexample: a product with positive quantity `3` whose
`alert_config` is a serialized blob that fails to decode is classified
`healthy` by `getStockStatus`, not `low` as the claim (via the default
threshold `5` and `3 ≤ 5`) demands. -/
theorem decodeFailure_counterexample :
    getStockStatus (sampleProduct 1 3 (.raw none)) = .healthy ∧
      getStockStatus (sampleProduct 1 3 (.raw none)) ≠ .low := by decide

/-- Claim C4 (amended): for every product with positive quantity, a
serialized `alert_config` that fails to decode makes the classifier
return `healthy` (the whole classification sits in the `try`, so the
`catch` wins); only when the `min_quantity` subfield is merely absent
(absent `alert_config`, structured without the subfield, or decoded
without the subfield) does the default threshold `5` apply, giving `low`
for quantity ≤ 5, `average` for 5 < quantity < 50, `healthy` for
quantity ≥ 50. -/
theorem stockStatus_default_amended (p : Product) (h : p.quantity ≠ 0) :
    (p.alert_config = .raw none → getStockStatus p = .healthy) ∧
      ((p.alert_config = .absent ∨ p.alert_config = .structured none ∨
          p.alert_config = .raw (some none)) →
        getStockStatus p =
          if p.quantity ≤ 5 then .low
          else if p.quantity < 50 then .average
          else .healthy) := by
  constructor
  · intro hc
    unfold getStockStatus
    simp [h, hc, getThreshold]
  · intro hc
    have ht : getThreshold p.alert_config = some 5 := by
      rcases hc with hc | hc | hc <;> simp [hc, getThreshold]
    unfold getStockStatus
    simp only [h, if_false, ht]
    have hcast : ((p.quantity : Int) ≤ 5) ↔ p.quantity ≤ 5 := by exact_mod_cast Iff.rfl
    split_ifs <;> simp_all

/-- Claim C4 witness: the amended theorem applied at a concrete product
with quantity `3` and absent `alert_config` classifies it `low`. -/
theorem stockStatus_default_witness :
    (sampleProduct 2 3 .absent).quantity ≠ 0 ∧
      getStockStatus (sampleProduct 2 3 .absent) = .low := by
  refine ⟨by decide, ?_⟩
  have h := (stockStatus_default_amended (sampleProduct 2 3 .absent) (by decide)).2
    (Or.inl rfl)
  simpa using h

/-! ## Query/filter pipeline algebra -/

/-- Claim C7: for every catalog and criteria, the pipeline's output is an
order-preserving subsequence of the catalog, and re-applying the
pipeline with the same criteria to its own output leaves it unchanged. -/
theorem applyFilters_sublist_and_idem (s : String) (f : Filters) (xs : List Product) :
    List.Sublist (applyFilters s f xs) xs ∧
      applyFilters s f (applyFilters s f xs) = applyFilters s f xs := by
  constructor
  · rw [applyFilters_eq_filter]
    exact List.filter_sublist xs
  · simp only [applyFilters_eq_filter, List.filter_filter]
    exact List.filter_congr (fun a _ => by cases pipelinePred s f a <;> rfl)

/-! ## Pagination arithmetic -/

/-- Claim C3 counterexample: for the empty filtered sequence (at the
source's page size 10), `totalPages` is `0`, not the claimed minimum of
`1`. -/
theorem totalPages_empty_counterexample :
    totalPages ([] : List Product) 10 = 0 ∧ totalPages ([] : List Product) 10 ≠ 1 := by
  decide

/-- Claim C3 (amended): for every filtered sequence and positive page
size, `totalPages` is exactly the ceiling of `length / pageSize` — with
no floor of 1: the empty sequence yields `0` pages, while its page-1
slice is still the valid empty slice. -/
theorem totalPages_ceil_noMin (xs : List Product) (pageSize : Nat) (hps : 0 < pageSize) :
    totalPages xs pageSize = ⌈(xs.length : ℚ) / (pageSize : ℚ)⌉₊ ∧
      totalPages ([] : List Product) pageSize = 0 ∧
      pageSlice ([] : List Product) pageSize 1 = [] := by
  have hempty : totalPages ([] : List Product) pageSize = 0 := by
    simp [totalPages, Nat.div_eq_of_lt (by omega : pageSize - 1 < pageSize)]
  refine ⟨?_, hempty, by simp [pageSlice]⟩
  rcases Nat.eq_zero_or_pos xs.length with hL | hL
  · rw [show xs = ([] : List Product) from List.eq_nil_of_length_eq_zero hL]
    simpa using hempty
  · set L := xs.length with hLdef
    set k := totalPages xs pageSize with hkdef
    have hk1 : 1 ≤ k := by
      rw [hkdef]
      unfold totalPages
      rw [← hLdef, Nat.le_div_iff_mul_le hps]
      omega
    have h1 : k * pageSize ≤ L + pageSize - 1 := by
      rw [hkdef]
      unfold totalPages
      rw [← hLdef]
      exact Nat.div_mul_le_self _ _
    have h2 : L + pageSize - 1 < (k + 1) * pageSize := by
      have := (Nat.div_lt_iff_lt_mul hps).mp
        (show (L + pageSize - 1) / pageSize < k + 1 by
          rw [hkdef]; unfold totalPages; rw [← hLdef]; omega)
      exact this
    have hA : (k - 1) * pageSize < L := by
      rw [Nat.sub_mul, one_mul]
      have hkk : pageSize ≤ k * pageSize := by
        calc pageSize = 1 * pageSize := (one_mul _).symm
        _ ≤ k * pageSize := Nat.mul_le_mul_right _ hk1
      omega
    have hB : L ≤ k * pageSize := by
      rw [Nat.add_mul, one_mul] at h2
      omega
    have hps' : (0 : ℚ) < (pageSize : ℚ) := by exact_mod_cast hps
    symm
    rw [Nat.ceil_eq_iff (by omega : k ≠ 0)]
    constructor
    · rw [lt_div_iff₀ hps']
      exact_mod_cast hA
    · rw [div_le_iff₀ hps']
      exact_mod_cast hB

/-- Claim C3 witness: the amended theorem applied at a three-element
filtered sequence and the source's page size 10. -/
theorem totalPages_ceil_witness :
    0 < 10 ∧
      (totalPages [sampleProduct 0 1 .absent, sampleProduct 1 1 .absent,
          sampleProduct 2 1 .absent] 10 =
        ⌈(([sampleProduct 0 1 .absent, sampleProduct 1 1 .absent,
            sampleProduct 2 1 .absent] : List Product).length : ℚ) / (10 : ℚ)⌉₊ ∧
        totalPages ([] : List Product) 10 = 0 ∧
        pageSlice ([] : List Product) 10 1 = []) :=
  ⟨by decide,
    totalPages_ceil_noMin
      [sampleProduct 0 1 .absent, sampleProduct 1 1 .absent, sampleProduct 2 1 .absent]
      10 (by decide)⟩

/-- Dropping one full page from a non-empty sequence removes exactly one
page from the count. -/
theorem totalPages_drop (xs : List Product) (pageSize : Nat) (hps : 0 < pageSize)
    (hxs : xs ≠ []) :
    totalPages xs pageSize = totalPages (xs.drop pageSize) pageSize + 1 := by
  have hL : 1 ≤ xs.length := by
    cases xs with
    | nil => exact absurd rfl hxs
    | cons a t => simp
  unfold totalPages
  rw [List.length_drop]
  have hsplit : xs.length + pageSize - 1 = (xs.length - 1) + pageSize := by omega
  rw [hsplit, Nat.add_div_right _ hps]
  rcases le_or_lt pageSize xs.length with hle | hlt
  · have : xs.length - pageSize + pageSize - 1 = xs.length - 1 := by omega
    rw [this]
  · have hz : xs.length - pageSize = 0 := by omega
    rw [hz, Nat.zero_add,
      Nat.div_eq_of_lt (by omega : pageSize - 1 < pageSize),
      Nat.div_eq_of_lt (by omega : xs.length - 1 < pageSize)]

/-- The slice of page `i + 2` of a sequence is the slice of page `i + 1`
of the sequence with its first page dropped. -/
theorem pageSlice_succ_drop (xs : List Product) (pageSize i : Nat) :
    pageSlice xs pageSize (i + 2) = pageSlice (xs.drop pageSize) pageSize (i + 1) := by
  unfold pageSlice
  rw [List.drop_drop]
  have harg : (i + 2 - 1) * pageSize = pageSize + (i + 1 - 1) * pageSize := by
    have h1 : i + 2 - 1 = i + 1 := rfl
    have h2 : i + 1 - 1 = i := rfl
    rw [h1, h2]
    ring
  rw [harg]

/-- Auxiliary induction for the reconstruction theorem, on a bound for
the sequence length. -/
theorem pagesJoin_aux (pageSize : Nat) (hps : 0 < pageSize) :
    ∀ n : Nat, ∀ xs : List Product, xs.length ≤ n →
      ((List.range (totalPages xs pageSize)).map
        (fun i => pageSlice xs pageSize (i + 1))).flatten = xs := by
  intro n
  induction n with
  | zero =>
    intro xs hx
    rw [show xs = ([] : List Product) from
      List.eq_nil_of_length_eq_zero (Nat.le_zero.mp hx)]
    simp [totalPages, Nat.div_eq_of_lt (by omega : pageSize - 1 < pageSize)]
  | succ n ih =>
    intro xs hx
    by_cases hxs : xs = []
    · rw [hxs]
      simp [totalPages, Nat.div_eq_of_lt (by omega : pageSize - 1 < pageSize)]
    · rw [totalPages_drop xs pageSize hps hxs, List.range_succ_eq_map, List.map_cons,
        List.map_map, List.flatten_cons]
      have hhead : pageSlice xs pageSize (0 + 1) = xs.take pageSize := by
        simp [pageSlice]
      have htail :
          (List.range (totalPages (xs.drop pageSize) pageSize)).map
              ((fun i => pageSlice xs pageSize (i + 1)) ∘ Nat.succ) =
            (List.range (totalPages (xs.drop pageSize) pageSize)).map
              (fun i => pageSlice (xs.drop pageSize) pageSize (i + 1)) := by
        refine List.map_congr_left (fun i _ => ?_)
        show pageSlice xs pageSize (i + 1 + 1) = pageSlice (xs.drop pageSize) pageSize (i + 1)
        exact pageSlice_succ_drop xs pageSize i
      rw [hhead, htail, ih (xs.drop pageSize) ?_, List.take_append_drop]
      rw [List.length_drop]
      have : 1 ≤ xs.length := by
        cases xs with
        | nil => exact absurd rfl hxs
        | cons a t => simp
      omega

/-- Claim C6: for every filtered sequence and positive page size,
concatenating the page slices for pages `1` through `totalPages`
reconstructs the filtered sequence exactly, each element appearing
exactly once. -/
theorem pages_reconstruct (xs : List Product) (pageSize : Nat) (hps : 0 < pageSize) :
    ((List.range (totalPages xs pageSize)).map
      (fun i => pageSlice xs pageSize (i + 1))).flatten = xs :=
  pagesJoin_aux pageSize hps xs.length xs le_rfl

/-- Claim C6 witness: the reconstruction theorem applied to a concrete
five-element sequence at page size 2 (three pages: 2 + 2 + 1 elements). -/
theorem pages_reconstruct_witness :
    0 < 2 ∧
      ((List.range (totalPages
          ((List.range 5).map (fun i => sampleProduct i 1 .absent)) 2)).map
        (fun i => pageSlice ((List.range 5).map (fun i => sampleProduct i 1 .absent))
          2 (i + 1))).flatten =
        (List.range 5).map (fun i => sampleProduct i 1 .absent) :=
  ⟨by decide,
    pages_reconstruct ((List.range 5).map (fun i => sampleProduct i 1 .absent)) 2
      (by decide)⟩

/-! ## Catalog state manager and remote sync -/

/-- Claim C2 evaluation at the failing input: a load whose HTTP response
is non-2xx but whose body parses to a one-product `data` array is NOT
treated as a failure by `fetchProducts` — the error state stays unset and
the catalog is replaced by the body's data, because the source never
inspects `response.ok` (or the status) on the load path, unlike the three
mutation handlers. -/
theorem fetch_non2xx_not_failure :
    (fetchProducts initialState (.got false [sampleProduct 7 1 .absent])).error = none ∧
      (fetchProducts initialState (.got false [sampleProduct 7 1 .absent])).products =
        [sampleProduct 7 1 .absent] ∧
      (fetchProducts initialState (.got false [sampleProduct 7 1 .absent])).products ≠ [] := by
  decide

/-- Claim C8: every recomputation of the derived view — triggered by a
catalog change (load, create, delete), a search-term change, or a
filter-set change — resets `currentPage` to 1; `paginate` alone changes
only `currentPage`, never the filtered sequence (nor the catalog or the
criteria). -/
theorem page_reset_invariant (st : ComponentState) (s : String) (f : Filters)
    (loaded : List Product) (created : Product) (pid n : Nat) :
    (applyFilterEffect st).currentPage = 1 ∧
      (setSearchTermOp st s).currentPage = 1 ∧
      (setFiltersOp st f).currentPage = 1 ∧
      (applyFilterEffect (fetchProducts st (.got true loaded))).currentPage = 1 ∧
      (applyFilterEffect (handleCreateProduct st (.success created))).currentPage = 1 ∧
      (applyFilterEffect (handleDeleteProduct st pid true .success)).currentPage = 1 ∧
      (paginate st n).filteredProducts = st.filteredProducts ∧
      (paginate st n).products = st.products ∧
      (paginate st n).searchTerm = st.searchTerm ∧
      (paginate st n).filters = st.filters :=
  ⟨rfl, rfl, rfl, rfl, rfl, rfl, rfl, rfl, rfl, rfl⟩

/-- Claim C9: a failed create — network/parse error or non-2xx response —
leaves the catalog untouched, sets the error state, and preserves the
creation form's input (the draft is not reset and the modal stays as it
was); only a successful create resets the draft and closes the modal. -/
theorem create_failure_preserves_state (st : ComponentState) (msg : String)
    (created : Product) :
    ((handleCreateProduct st (.netFail msg)).products = st.products ∧
      (handleCreateProduct st (.netFail msg)).error = some msg ∧
      (handleCreateProduct st (.netFail msg)).newProduct = st.newProduct ∧
      (handleCreateProduct st (.netFail msg)).showCreateModal = st.showCreateModal) ∧
    ((handleCreateProduct st .httpFail).products = st.products ∧
      (handleCreateProduct st .httpFail).error = some "Failed to create product" ∧
      (handleCreateProduct st .httpFail).newProduct = st.newProduct ∧
      (handleCreateProduct st .httpFail).showCreateModal = st.showCreateModal) ∧
    ((handleCreateProduct st (.success created)).newProduct = initialDraft ∧
      (handleCreateProduct st (.success created)).showCreateModal = false) :=
  ⟨⟨rfl, rfl, rfl, rfl⟩, ⟨rfl, rfl, rfl, rfl⟩, rfl, rfl⟩

/-- Claim C10 counterexample: with a 21-entry catalog, default criteria
and the operator on page 3 (the last page, holding exactly the entry
with id 20), deleting that entry does remove it, but the next
recomputation sets `currentPage` to 1 — not to the new last valid page
2, as the claim demands. -/
theorem delete_lastPage_counterexample :
    demoState.currentPage = 3 ∧
      totalPages demoState.filteredProducts productsPerPage = 3 ∧
      pageSlice demoState.filteredProducts productsPerPage 3 =
        [sampleProduct 20 60 .absent] ∧
      (∀ p ∈ (applyFilterEffect
          (handleDeleteProduct demoState 20 true .success)).products, p.id ≠ 20) ∧
      totalPages (applyFilterEffect
          (handleDeleteProduct demoState 20 true .success)).filteredProducts
        productsPerPage = 2 ∧
      (applyFilterEffect (handleDeleteProduct demoState 20 true .success)).currentPage
        = 1 ∧
      (applyFilterEffect (handleDeleteProduct demoState 20 true .success)).currentPage
        ≠ 2 := by
  decide

/-- Claim C10 (amended): after every successful confirmed delete, the
catalog contains no entry with the deleted id, and the recomputation of
the derived view that follows the catalog change sets `currentPage` to 1
(always a valid page) — it does not clamp to the new last valid page. -/
theorem delete_success_removes_id (st : ComponentState) (pid : Nat) :
    (∀ p ∈ (applyFilterEffect (handleDeleteProduct st pid true .success)).products,
        p.id ≠ pid) ∧
      (applyFilterEffect (handleDeleteProduct st pid true .success)).currentPage = 1 := by
  constructor
  · intro p hp
    have hp' : p ∈ st.products.filter (fun q => q.id != pid) := hp
    have := List.of_mem_filter hp'
    simpa using this
  · rfl

end InventoryFrontend
